import Mathlib

/-!
Verification of the `recovery` HTTP middleware (package `recovery`).

The middleware wraps an HTTP handler; on a recovered panic it invokes a
replaceable panic handler, captures a stack snapshot and writes one log
line.  This file gives a shallow embedding of the package and proves the
specified properties about it.

Modelling choices, all driven by the source:
* `ResponseWriter` models `http.ResponseWriter` state: an optional status
  code (set by the first `WriteHeader`; a body `Write` with no header yet
  implicitly sets 200, as in `net/http`) and the accumulated body text.
* A downstream handler (`DHandler`) either completes normally or ends in a
  panic carrying a recovered value; `none` models a recovered `nil` value
  (as obtained from `panic(nil)` under the Go semantics this package was
  written against), `some d` a value whose text form is `d`.  Panic
  handlers installed in the middleware are total functions: per the spec,
  failures inside the recovery path are out of scope.
* `GoLogger` models `log.Logger`: a destination writer, a stored text put
  in front of each line, and a flag word.  The date/time/file metadata a
  flag word selects depends on the clock, so it is an opaque parameter of
  the run (`Env.headerMeta`), as is the stack text `runtime.Stack` would
  produce (`Env.stackText`, a function of the all-goroutines boolean).
  Byte buffers are modelled as strings, byte truncation as `goTake`.
* `Recovery.Handler` is the wrapped handler body.  The Go closure reads
  `r.panicHandler` through the shared pointer at recovery time, so the
  embedding passes the current `Recovery` state at invocation.  A ghost
  trace of `Event`s records, in order, the calls the body performs, for
  the temporal claims.
-/

set_option autoImplicit false

namespace UnrolledRecovery

/-- An `io.Writer` destination: either the process standard error stream or
a user-supplied buffer; `contents` is everything written to it so far. -/
structure Writer where
  isStderr : Bool
  contents : String
deriving DecidableEq

/-- `http.ResponseWriter` state: the status code, once written, and the
accumulated response body. -/
structure ResponseWriter where
  code : Option Nat
  body : String
deriving DecidableEq

/-- An HTTP request (only identity matters to this package; it never reads
the fields). -/
structure Request where
  method : String
  url : String
deriving DecidableEq

/-- `WriteHeader`: the first call sets the status code; later calls are
superfluous and ignored, as in `net/http`. -/
def ResponseWriter.writeHeader (w : ResponseWriter) (c : Nat) : ResponseWriter :=
  match w.code with
  | none => { w with code := some c }
  | some _ => w

/-- `Write`: appends to the body; if no header was written yet this
implicitly writes status 200 first, as in `net/http`. -/
def ResponseWriter.write (w : ResponseWriter) (s : String) : ResponseWriter :=
  { code := match w.code with
      | none => some 200
      | some c => some c,
    body := w.body ++ s }

/-- Outcome of running a downstream handler: normal completion, or a panic
whose recovered value is `v` (`none` models a recovered `nil`).  Either way
the writer state the handler left behind is carried along. -/
inductive HOutcome where
  | normal (w : ResponseWriter)
  | panicked (w : ResponseWriter) (v : Option String)
deriving DecidableEq

/-- Whether the outcome is a normal return (no fault escaping). -/
def HOutcome.isNormal : HOutcome → Bool
  | .normal _ => true
  | .panicked _ _ => false

/-- The response writer state an outcome carries. -/
def HOutcome.respW : HOutcome → ResponseWriter
  | .normal w => w
  | .panicked w _ => w

/-- The status code of the response an outcome carries. -/
def HOutcome.respCode (o : HOutcome) : Option Nat := o.respW.code

/-- The body of the response an outcome carries. -/
def HOutcome.respBody (o : HOutcome) : String := o.respW.body

/-- A downstream `http.Handler`: may complete normally or panic. -/
abbrev DHandler : Type := ResponseWriter → Request → HOutcome

/-- A panic handler (`http.Handler` used as the fallback): recovery-path
failures are out of scope, so it is a total function on the writer. -/
abbrev PHandler : Type := ResponseWriter → Request → ResponseWriter

/-- `http.StatusText` for the codes this development touches; other codes
are unused by the package. -/
def StatusText (code : Nat) : String :=
  if code = 200 then "OK"
  else if code = 400 then "Bad Request"
  else if code = 404 then "Not Found"
  else if code = 500 then "Internal Server Error"
  else ""

/-- `http.Error(w, msg, code)`: writes the header with `code`, then the
message followed by a newline (`fmt.Fprintln`). -/
def httpError (w : ResponseWriter) (msg : String) (code : Nat) : ResponseWriter :=
  (w.writeHeader code).write (msg ++ "\n")

/-- `defaultPanicHandler` from the source: `http.Error` with status 500 and
the standard status text. -/
def defaultPanicHandler (w : ResponseWriter) (_req : Request) : ResponseWriter :=
  httpError w (StatusText 500) 500

/-- `log.Ldate`. -/
def Ldate : Int := 1
/-- `log.Ltime`. -/
def Ltime : Int := 2
/-- `log.LstdFlags = Ldate | Ltime` (disjoint bits, so the sum). -/
def LstdFlags : Int := Ldate + Ltime

/-- Opaque external capabilities a run depends on: the stack text
`runtime.Stack` would produce (as a function of the all-goroutines flag)
and the date/time/file metadata the `log` package derives from a flag
word at write time. -/
structure Env where
  stackText : Bool → String
  headerMeta : Int → String

/-- Truncation of a byte buffer to `n` bytes, modelled on characters. -/
def goTake (s : String) (n : Nat) : String := ⟨s.data.take n⟩

/-- Whether a message already ends in a newline (the `log` package only
appends a terminator when it does not). -/
def endsWithNewline (s : String) : Bool :=
  match s.data.getLast? with
  | some c => c = '\n'
  | none => false

/-- The line terminator the `log` package appends to a message. -/
def logTerm (msg : String) : String :=
  if endsWithNewline msg then "" else "\n"

/-- `log.Logger`: destination, stored front text (already bracketed at
construction when applicable), and flag word. -/
structure GoLogger where
  out : Writer
  PrefixStr : String
  flag : Int

/-- `log.New(out, p, flag)`. -/
def logNew (out : Writer) (p : String) (flag : Int) : GoLogger :=
  { out := out, PrefixStr := p, flag := flag }

/-- `Logger.Output`: appends to the destination the stored front text, the
metadata selected by the flag word, the message, and a terminating newline
when the message lacks one. -/
def GoLogger.output (l : GoLogger) (env : Env) (msg : String) : GoLogger :=
  { l with out := { l.out with contents :=
      l.out.contents ++ l.PrefixStr ++ env.headerMeta l.flag ++ msg ++ logTerm msg } }

/-- `Options` from the source (field `Prefix` is rendered `PrefixStr`). -/
structure Options where
  IncludeFullStack : Bool
  StackSize : Int
  PrefixStr : String
  DisableAutoBrackets : Bool
  Out : Option Writer
  OutputFlags : Int
deriving DecidableEq

/-- The Go zero value `Options{}`. -/
def Options.zeroValue : Options :=
  { IncludeFullStack := false, StackSize := 0, PrefixStr := "",
    DisableAutoBrackets := false, Out := none, OutputFlags := 0 }

/-- The `Recovery` struct: embedded logger, resolved options, and the
mutable panic handler reference. -/
structure Recovery where
  Logger : GoLogger
  opt : Options
  panicHandler : PHandler

/-- The default destination, `os.Stderr` (initially empty in a run). -/
def stderrWriter : Writer := { isStderr := true, contents := "" }

/-- The configuration `New` starts from: the first supplied `Options`, or
the zero value when none is supplied (extra arguments are ignored). -/
def suppliedOptions (opts : List Options) : Options :=
  match opts with
  | [] => Options.zeroValue
  | o :: _ => o

/-- `New` from the source: resolves the stack size, the bracketed front
text, the destination and the flag word, builds the logger, and installs
`defaultPanicHandler`. -/
def New (opts : List Options) : Recovery :=
  let o0 : Options := suppliedOptions opts
  let o : Options :=
    if o0.StackSize ≤ 0 then { o0 with StackSize := 8 * 1024 } else o0
  let pfx0 : String := o.PrefixStr
  let pfx : String :=
    if 0 < pfx0.length ∧ o.DisableAutoBrackets = false
    then "[" ++ pfx0 ++ "] " else pfx0
  let output : Writer :=
    match o.Out with
    | some wtr => wtr
    | none => stderrWriter
  let flags : Int :=
    if o.OutputFlags = -1 then 0
    else if o.OutputFlags ≠ 0 then o.OutputFlags
    else LstdFlags
  { Logger := logNew output pfx flags, opt := o, panicHandler := defaultPanicHandler }

/-- `SetPanicHandler` from the source. -/
def Recovery.SetPanicHandler (r : Recovery) (handler : PHandler) : Recovery :=
  { r with panicHandler := handler }

/-- The stack snapshot the recovery path captures:
`runtime.Stack(make([]byte, StackSize), IncludeFullStack)`, i.e. the stack
text truncated to at most `StackSize` bytes. -/
def Recovery.captureStack (r : Recovery) (env : Env) : String :=
  goTake (env.stackText r.opt.IncludeFullStack) r.opt.StackSize.toNat

/-- Ghost trace events of one invocation of the wrapped handler, in the
order the body performs them. -/
inductive Event where
  | callNext
  | invokePanicHandler
  | captureStack
  | emitLog
deriving DecidableEq

/-- Number of occurrences of an event in a trace. -/
def eventCount (e : Event) : List Event → Nat
  | [] => 0
  | x :: xs => (if x = e then 1 else 0) + eventCount e xs

/-- Position of the first occurrence of an event in a trace (length of the
trace when absent). -/
def eventIdx (e : Event) : List Event → Nat
  | [] => 0
  | x :: xs => if x = e then 0 else eventIdx e xs + 1

/-- The body of the handler `Recovery.Handler` wraps around `next`: runs
`next`; the deferred function then calls `recover()`, which stops any
panic; when the recovered value is non-nil it invokes the current panic
handler, captures the stack and prints the log message.  Returns the
outcome seen by the caller of the wrapped handler, the recovery state
(its logger destination may have grown), and the ghost trace. -/
def Recovery.Handler (r : Recovery) (next : DHandler) (env : Env)
    (w : ResponseWriter) (req : Request) : HOutcome × Recovery × List Event :=
  match next w req with
  | HOutcome.normal w1 => (HOutcome.normal w1, r, [Event.callNext])
  | HOutcome.panicked w1 none => (HOutcome.normal w1, r, [Event.callNext])
  | HOutcome.panicked w1 (some err) =>
    let w2 := r.panicHandler w1 req
    let msg := "Recovering from Panic: " ++ err ++ "\n" ++ r.captureStack env
    (HOutcome.normal w2,
     { r with Logger := r.Logger.output env msg },
     [Event.callNext, Event.invokePanicHandler, Event.captureStack, Event.emitLog])

/-- Evaluation of the wrapped handler on the recovered non-nil fault path
(shared by several proofs below). -/
theorem Handler_eq_of_panicked (r : Recovery) (env : Env) (next : DHandler)
    (w w1 : ResponseWriter) (req : Request) (d : String)
    (hp : next w req = HOutcome.panicked w1 (some d)) :
    r.Handler next env w req
      = (HOutcome.normal (r.panicHandler w1 req),
         { r with Logger := r.Logger.output env ("Recovering from Panic: " ++ d ++ "\n" ++ r.captureStack env) },
         [Event.callNext, Event.invokePanicHandler, Event.captureStack,
          Event.emitLog]) := by
  unfold Recovery.Handler
  rw [hp]

/-! Concrete data for witnesses and counterexamples. -/

/-- A concrete request. -/
def testReq : Request := { method := "GET", url := "/foo" }

/-- A fresh response writer: nothing written yet. -/
def freshW : ResponseWriter := { code := none, body := "" }

/-- A concrete buffer destination. -/
def bufWriter : Writer := { isStderr := false, contents := "" }

/-- Options directing log output to a buffer, everything else zero. -/
def optionsBuf : Options := { Options.zeroValue with Out := some bufWriter }

/-- A concrete environment: fixed stack text (longer when all goroutines
are included) and fixed date/time metadata when any flag is set. -/
def testEnv : Env :=
  { stackText := fun full =>
      if full
      then "goroutine 5 [running]:\nmain.go:12\ngoroutine 6 [idle]:\nrt.go:1\n"
      else "goroutine 5 [running]:\nmain.go:12\n",
    headerMeta := fun f => if f = 0 then "" else "2014/12/05 23:15:11 " }

/-- A downstream handler that panics with a non-nil value. -/
def panicNext : DHandler := fun w _ => HOutcome.panicked w (some "boom")

/-- A downstream handler that panics with a nil value. -/
def nilPanicNext : DHandler := fun w _ => HOutcome.panicked w none

/-- A downstream handler that completes normally, writing a body. -/
def okNext : DHandler := fun w _ => HOutcome.normal (w.write "bar")

/-- A custom panic handler: status 400 and a fixed body. -/
def customPanicHandler : PHandler := fun w _ =>
  (w.writeHeader 400).write "You got 400 yo!"

/-! Claims. -/

/-- C1: for every wrapped handler `next` and every request, if `next`
raises an unhandled runtime fault during handling, the fault never
propagates out of the wrapper: the call to the wrapped handler always
returns normally and the wrapper never re-raises. -/
theorem C1_fault_containment (r : Recovery) (env : Env) (next : DHandler)
    (w w1 : ResponseWriter) (req : Request) (v : Option String)
    (hp : next w req = HOutcome.panicked w1 v) :
    ((r.Handler next env w req).1).isNormal = true := by
  unfold Recovery.Handler
  rw [hp]
  cases v <;> rfl

/-- C1 witness: the wrapper around a handler that panics with value
`"boom"` returns normally on a concrete request. -/
theorem C1_fault_containment_witness :
    (((New []).Handler panicNext testEnv freshW testReq).1).isNormal = true :=
  C1_fault_containment (New []) testEnv panicNext freshW freshW testReq
    (some "boom") rfl

/-- C4: if `next` completes without raising an unhandled fault, the wrapper
has no observable side effect: the outcome is exactly the one `next`
produced, the recovery state (in particular the log destination) is
unchanged, and the trace holds only the downstream call. -/
theorem C4_passthrough (r : Recovery) (env : Env) (next : DHandler)
    (w w1 : ResponseWriter) (req : Request)
    (hn : next w req = HOutcome.normal w1) :
    r.Handler next env w req = (HOutcome.normal w1, r, [Event.callNext]) := by
  unfold Recovery.Handler
  rw [hn]

/-- C4 witness: wrapping a handler that writes `"bar"` and returns normally
passes its response through unchanged on a concrete request. -/
theorem C4_passthrough_witness :
    (New []).Handler okNext testEnv freshW testReq
      = (HOutcome.normal (freshW.write "bar"), New [], [Event.callNext]) :=
  C4_passthrough (New []) testEnv okNext freshW (freshW.write "bar") testReq rfl

/-- C10: if the downstream handler panics with a recovered value of nil,
the wrapper still returns normally (the fault does not propagate), but the
panic handler is not invoked, no stack snapshot is captured and no log
line is written: the client receives exactly what the downstream handler
wrote before faulting and the recovery state is unchanged. -/
theorem C10_nil_panic_absorbed_silently (r : Recovery) (env : Env)
    (next : DHandler) (w w1 : ResponseWriter) (req : Request)
    (hp : next w req = HOutcome.panicked w1 none) :
    r.Handler next env w req = (HOutcome.normal w1, r, [Event.callNext]) := by
  unfold Recovery.Handler
  rw [hp]

/-- C10 witness: a concrete nil-valued panic is absorbed with no panic
handler invocation, no capture and no log event. -/
theorem C10_nil_panic_absorbed_silently_witness :
    (New []).Handler nilPanicNext testEnv freshW testReq
      = (HOutcome.normal freshW, New [], [Event.callNext]) :=
  C10_nil_panic_absorbed_silently (New []) testEnv nilPanicNext freshW freshW
    testReq rfl

/-- C3: on every recovered (non-nil) fault, the currently configured panic
handler is invoked exactly once, with the original request and the writer
state the downstream left, and this invocation comes strictly before the
stack capture and strictly before the log emission in the trace. -/
theorem C3_fallback_first (r : Recovery) (env : Env) (next : DHandler)
    (w w1 : ResponseWriter) (req : Request) (d : String)
    (hp : next w req = HOutcome.panicked w1 (some d)) :
    eventCount Event.invokePanicHandler (r.Handler next env w req).2.2 = 1
    ∧ eventIdx Event.invokePanicHandler (r.Handler next env w req).2.2
        < eventIdx Event.captureStack (r.Handler next env w req).2.2
    ∧ eventIdx Event.captureStack (r.Handler next env w req).2.2
        < eventIdx Event.emitLog (r.Handler next env w req).2.2
    ∧ (r.Handler next env w req).1 = HOutcome.normal (r.panicHandler w1 req) := by
  rw [Handler_eq_of_panicked r env next w w1 req d hp]
  refine ⟨?_, ?_, ?_, rfl⟩ <;> simp [eventCount, eventIdx]

/-- C3 witness: the ordering and single invocation hold on a concrete
faulting request. -/
theorem C3_fallback_first_witness :
    eventCount Event.invokePanicHandler
        ((New []).Handler panicNext testEnv freshW testReq).2.2 = 1
    ∧ eventIdx Event.invokePanicHandler
          ((New []).Handler panicNext testEnv freshW testReq).2.2
        < eventIdx Event.captureStack
            ((New []).Handler panicNext testEnv freshW testReq).2.2
    ∧ eventIdx Event.captureStack
          ((New []).Handler panicNext testEnv freshW testReq).2.2
        < eventIdx Event.emitLog
            ((New []).Handler panicNext testEnv freshW testReq).2.2
    ∧ ((New []).Handler panicNext testEnv freshW testReq).1
        = HOutcome.normal ((New []).panicHandler freshW testReq) :=
  C3_fallback_first (New []) testEnv panicNext freshW freshW testReq "boom" rfl

/-- C5: on every recovered (non-nil) fault, exactly one log line is written
to the configured destination: the stored front text, then the metadata
selected by the flag word, then exactly
`"Recovering from Panic: " ++ fault ++ "\n" ++ captured stack`, then the
terminating newline the log package adds when the message lacks one. -/
theorem C5_single_log_line (r : Recovery) (env : Env) (next : DHandler)
    (w w1 : ResponseWriter) (req : Request) (d : String)
    (hp : next w req = HOutcome.panicked w1 (some d)) :
    ((r.Handler next env w req).2.1).Logger.out.contents
      = r.Logger.out.contents ++ r.Logger.PrefixStr
          ++ env.headerMeta r.Logger.flag
          ++ ("Recovering from Panic: " ++ d ++ "\n" ++ r.captureStack env)
          ++ logTerm ("Recovering from Panic: " ++ d ++ "\n" ++ r.captureStack env)
    ∧ eventCount Event.emitLog (r.Handler next env w req).2.2 = 1 := by
  rw [Handler_eq_of_panicked r env next w w1 req d hp]
  exact ⟨rfl, by simp [eventCount]⟩

/-- C5 witness: the log line content equation and single emission hold on a
concrete faulting request with a buffer destination. -/
theorem C5_single_log_line_witness :
    (((New [optionsBuf]).Handler panicNext testEnv freshW testReq).2.1).Logger.out.contents
      = (New [optionsBuf]).Logger.out.contents ++ (New [optionsBuf]).Logger.PrefixStr
          ++ testEnv.headerMeta (New [optionsBuf]).Logger.flag
          ++ ("Recovering from Panic: " ++ "boom" ++ "\n"
              ++ (New [optionsBuf]).captureStack testEnv)
          ++ logTerm ("Recovering from Panic: " ++ "boom" ++ "\n"
              ++ (New [optionsBuf]).captureStack testEnv)
    ∧ eventCount Event.emitLog
        ((New [optionsBuf]).Handler panicNext testEnv freshW testReq).2.2 = 1 :=
  C5_single_log_line (New [optionsBuf]) testEnv panicNext freshW freshW testReq
    "boom" rfl

/-- C9: after `SetPanicHandler h`, every (non-nil) fault recovered
afterwards invokes `h` — the wrapped closure reads the panic handler field
at recovery time, so this covers wrappers created before the swap — and a
second call to the setter overwrites the first (last write wins). -/
theorem C9_set_panic_handler (r : Recovery) (h h1 h2 : PHandler) (env : Env)
    (next : DHandler) (w w1 : ResponseWriter) (req : Request) (d : String)
    (hp : next w req = HOutcome.panicked w1 (some d)) :
    ((r.SetPanicHandler h).Handler next env w req).1
        = HOutcome.normal (h w1 req)
    ∧ (r.SetPanicHandler h1).SetPanicHandler h2 = r.SetPanicHandler h2 := by
  constructor
  · rw [Handler_eq_of_panicked (r.SetPanicHandler h) env next w w1 req d hp]
    rfl
  · rfl

/-- C9 witness: after installing the custom 400 handler, a concrete
recovered fault is answered by it, and overwriting it with the default
handler equals installing the default handler directly. -/
theorem C9_set_panic_handler_witness :
    (((New []).SetPanicHandler customPanicHandler).Handler panicNext testEnv
        freshW testReq).1
        = HOutcome.normal (customPanicHandler freshW testReq)
    ∧ ((New []).SetPanicHandler customPanicHandler).SetPanicHandler
          defaultPanicHandler
        = (New []).SetPanicHandler defaultPanicHandler :=
  C9_set_panic_handler (New []) customPanicHandler customPanicHandler
    defaultPanicHandler testEnv panicNext freshW freshW testReq "boom" rfl

/-- C2 counterexample: with no custom panic handler, a concrete faulting
request (downstream wrote nothing) yields a body that is NOT equal to the
standard status text: `http.Error` appends a trailing newline
(`fmt.Fprintln`), so the body is the text followed by a newline. -/
theorem C2_counterexample :
    ¬ (((New [optionsBuf]).Handler panicNext testEnv freshW testReq).1.respBody
        = StatusText 500) := by
  decide

/-- C2 (amended): with no custom fallback handler installed, every request
whose downstream handling faults with a non-nil value while no status code
has yet been written yields a response with status 500 and a body equal to
whatever the downstream had written followed by the standard textual
description of that status and a trailing newline. -/
theorem C2_default_response (opts : List Options) (env : Env)
    (next : DHandler) (w w1 : ResponseWriter) (req : Request) (d : String)
    (hw1 : w1.code = none)
    (hp : next w req = HOutcome.panicked w1 (some d)) :
    ((New opts).Handler next env w req).1.respCode = some 500
    ∧ ((New opts).Handler next env w req).1.respBody
        = w1.body ++ (StatusText 500 ++ "\n") := by
  rcases w1 with ⟨wc, wb⟩
  obtain rfl : wc = none := hw1
  rw [Handler_eq_of_panicked (New opts) env next w ⟨none, wb⟩ req d hp]
  exact ⟨rfl, rfl⟩

/-- C2 witness: the amended default-response property at a concrete
faulting request. -/
theorem C2_default_response_witness :
    ((New []).Handler panicNext testEnv freshW testReq).1.respCode = some 500
    ∧ ((New []).Handler panicNext testEnv freshW testReq).1.respBody
        = freshW.body ++ (StatusText 500 ++ "\n") :=
  C2_default_response [] testEnv panicNext freshW freshW testReq "boom" rfl rfl

/-- C6: at construction, if the supplied text is non-empty and
auto-bracketing is not disabled, the stored front text is
`"[" ++ p ++ "] "`; otherwise the supplied text is used verbatim (empty
yields none at all); and at log-write time the stored text is left
untouched and is prepended verbatim, so bracketing happens exactly once,
at construction. -/
theorem C6_prefix_resolution (o : Options) (env : Env) (msg : String) :
    (New [o]).Logger.PrefixStr
      = (if 0 < o.PrefixStr.length ∧ o.DisableAutoBrackets = false
         then "[" ++ o.PrefixStr ++ "] " else o.PrefixStr)
    ∧ ((New [o]).Logger.output env msg).PrefixStr = (New [o]).Logger.PrefixStr
    ∧ ((New [o]).Logger.output env msg).out.contents
        = (New [o]).Logger.out.contents ++ (New [o]).Logger.PrefixStr
            ++ env.headerMeta (New [o]).Logger.flag ++ msg ++ logTerm msg := by
  refine ⟨?_, rfl, rfl⟩
  by_cases hs : o.StackSize ≤ 0 <;>
    simp [New, suppliedOptions, logNew, hs]

/-- C7: at construction, the flag-word selector resolves as follows: the
sentinel -1 yields the empty flag set 0 (no metadata); 0 (unset) yields
the standard default `LstdFlags` (date and time); any other value is used
as-is. -/
theorem C7_flag_resolution (o : Options) :
    (New [o]).Logger.flag
      = (if o.OutputFlags = -1 then 0
         else if o.OutputFlags = 0 then LstdFlags
         else o.OutputFlags)
    ∧ LstdFlags = Ldate + Ltime := by
  refine ⟨?_, rfl⟩
  by_cases hs : o.StackSize ≤ 0 <;>
    by_cases h1 : o.OutputFlags = -1 <;>
      by_cases h0 : o.OutputFlags = 0 <;>
        simp [New, suppliedOptions, logNew, hs, h1, h0]

/-- The truncation `goTake` never yields more than `n` characters (the
model of "at most `n` bytes"). -/
theorem goTake_length_le (s : String) (n : Nat) : (goTake s n).length ≤ n := by
  simp only [goTake, String.length]
  exact List.length_take_le n s.data

/-- C8: the stored stack-buffer size is always positive — the supplied
value when positive, 8192 otherwise — and every captured stack snapshot is
at most that many bytes (silent truncation, never an error). -/
theorem C8_stack_size (opts : List Options) (env : Env) :
    0 < (New opts).opt.StackSize
    ∧ (New opts).opt.StackSize
        = (if 0 < (suppliedOptions opts).StackSize
           then (suppliedOptions opts).StackSize else 8192)
    ∧ ((New opts).captureStack env).length ≤ (New opts).opt.StackSize.toNat := by
  refine ⟨?_, ?_, goTake_length_le _ _⟩ <;>
    by_cases hs : (suppliedOptions opts).StackSize ≤ 0 <;>
      simp [New, hs] <;>
        omega

end UnrolledRecovery
